import Mathlib

/-!
Verification of the concurrency-isolation checking pass declared in
`lib/Sema/TypeCheckConcurrency.h`.

The header defines the isolation model (`ActorIsolationRestriction` with its
kind tag, cross-actor flag, payload union, constructors and accessors) and the
`ConcurrentReferenceKind` / `ConcurrentValueCheck` enums; those are embedded
directly from the source.  The resolver, boundary checker, shareability
checker, conformance checker and override checker are only declared in the
header (their definitions live in a translation unit that is not part of the
repository), so they are modelled from the specification's component design.

Pointers into the external AST (`ClassDecl *`, `TypeBase *`, `DeclContext *`)
are modelled as natural-number identifiers.
-/

set_option linter.unusedVariables false

namespace Swift

/-- An actor class in the analyzed program, `ClassDecl *` in the source. -/
abbrev ClassDecl := Nat

/-- A global-actor marker type, `TypeBase *` in the source. -/
abbrev TypeBase := Nat

/-- From the source (`ConcurrentReferenceKind`, TypeCheckConcurrency.h:57-67):
the kind of operation that introduced the concurrent reference. -/
inductive ConcurrentReferenceKind
  | SynchronousAsAsyncCall
  | CrossActor
  | LocalCapture
  | ConcurrentFunction
deriving DecidableEq

/-- From the source (`ActorIsolationRestriction::Kind`,
TypeCheckConcurrency.h:73-99).  The source constructor `Unsafe` is rendered
`UnsafeAccess` and `GlobalActorUnsafe` is rendered `GlobalActorUnsafeAcc`
here; they are the same tags. -/
inductive Kind
  | Unrestricted
  | UnsafeAccess
  | CrossActorSelf
  | ActorSelf
  | GlobalActor
  | GlobalActorUnsafeAcc
deriving DecidableEq

/-- From the source (`ActorIsolationRestriction`, TypeCheckConcurrency.h:71-172).
The payload union (`localContext` / `actorClass` / `globalActor`, all pointers)
is a single slot `data`; which pointer it holds is determined by `kind`, as in
the source.  `forUnrestricted` and `forUnsafe` leave the union uninitialized
in the source; the model fills the slot with 0, which no accessor exposes for
those kinds. -/
structure ActorIsolationRestriction where
  kind : Kind
  isCrossActor : Bool
  data : Nat
deriving DecidableEq

namespace ActorIsolationRestriction

/-- From the source (TypeCheckConcurrency.h:124). -/
def getKind (r : ActorIsolationRestriction) : Kind := r.kind

/-- From the source (TypeCheckConcurrency.h:127-130): retrieve the actor class,
asserting `kind == ActorSelf || kind == CrossActorSelf`.  The assertion branch
is modelled as `none`. -/
def getActorClass (r : ActorIsolationRestriction) : Option ClassDecl :=
  if r.kind = Kind.ActorSelf ∨ r.kind = Kind.CrossActorSelf then
    some r.data
  else
    none

/-- From the source (TypeCheckConcurrency.h:133-136): retrieve the global actor
type, asserting `kind == GlobalActor || kind == GlobalActorUnsafe`.  The
assertion branch is modelled as `none`. -/
def getGlobalActor (r : ActorIsolationRestriction) : Option TypeBase :=
  if r.kind = Kind.GlobalActor ∨ r.kind = Kind.GlobalActorUnsafeAcc then
    some r.data
  else
    none

/-- From the source (`forUnrestricted`, TypeCheckConcurrency.h:139-141). -/
def forUnrestricted : ActorIsolationRestriction :=
  ⟨Kind.Unrestricted, false, 0⟩

/-- From the source (`forUnsafe`, TypeCheckConcurrency.h:144-146). -/
def forUnsafeAccess : ActorIsolationRestriction :=
  ⟨Kind.UnsafeAccess, false, 0⟩

/-- From the source (`forActorSelf`, TypeCheckConcurrency.h:150-156): the kind
is `CrossActorSelf` when `isCrossActor` holds and `ActorSelf` otherwise, and
the union slot holds the actor class. -/
def forActorSelf (actorClass : ClassDecl) (isCrossActor : Bool) :
    ActorIsolationRestriction :=
  ⟨if isCrossActor then Kind.CrossActorSelf else Kind.ActorSelf,
   isCrossActor, actorClass⟩

/-- From the source (`forGlobalActor`, TypeCheckConcurrency.h:160-166): the
kind is `GlobalActorUnsafe` when the third argument (`isUnsafe` in the source)
holds and `GlobalActor` otherwise, and the union slot holds the global actor
type. -/
def forGlobalActor (globalActor : TypeBase) (isCrossActor : Bool)
    (inferredFlag : Bool) : ActorIsolationRestriction :=
  ⟨if inferredFlag then Kind.GlobalActorUnsafeAcc else Kind.GlobalActor,
   isCrossActor, globalActor⟩

end ActorIsolationRestriction

/-- Modelled from the spec: the type model consumed by the Shareability
Checker (section 4.2), whose implementation is not under src/.  `prim` is a
primitive/value type with no stored references; `actorRef` is a handle to an
actor-like type (an isolation domain owner); `mutRef` is a plain
reference-semantics type; `fn` is a function/closure type with its
concurrent-safety mark; `strukt` is a nominal aggregate with the types of its
stored members (type arguments used in stored positions appear here already
substituted). -/
inductive Ty
  | prim (id : Nat)
  | actorRef (actorClass : Nat)
  | mutRef (id : Nat)
  | fn (concurrent : Bool)
  | strukt (members : List Ty)

mutual

/-- Modelled from the spec: the Shareability Checker `isShareable(type)`
(section 4.2), whose implementation is not under src/.  Primitive value types
are shareable; a reference-semantics type is shareable only when it is itself
an isolation domain owner (actor-like); a function type is shareable only when
marked safe to invoke concurrently; an aggregate is shareable iff every stored
member's type is. -/
def isShareable : Ty → Bool
  | Ty.prim _ => true
  | Ty.actorRef _ => true
  | Ty.mutRef _ => false
  | Ty.fn concurrent => concurrent
  | Ty.strukt members => allMembersShareable members

/-- Modelled from the spec: the Shareability Checker's recursion over the
stored members of an aggregate (section 4.2). -/
def allMembersShareable : List Ty → Bool
  | [] => true
  | t :: ts => isShareable t && allMembersShareable ts

end

/-- Modelled from the spec: a declaration of the analyzed program, carrying
exactly the facts the Isolation Resolver's five rules (section 4.1) consult,
plus the types the Boundary Checker walks (parameter and result types for a
callable, the stored type for a property; section 4.3). -/
structure Decl where
  attrGlobal : Option Nat
  actorMember : Option Nat
  isolationExempt : Bool
  globalMutableStorage : Bool
  inferredGlobalAttr : Option Nat
  signatureTypes : List Ty

/-- Modelled from the spec: a referencing context — the declaration the
reference occurs in, and whether the reference is made via that actor
instance's own domain (rule 2 of section 4.1). -/
structure RefContext where
  decl : Decl
  viaOwnInstance : Bool

/-- Modelled from the spec: an isolation domain (section 3): `Unrestricted`,
the no-guarantee domain of global/static mutable state (`UnsafeDom`),
instance isolation, or a global domain with its inferred flag. -/
inductive Domain
  | Unrestricted
  | UnsafeDom
  | InstanceSelf (actorClass : Nat)
  | GlobalDom (globalActor : Nat) (inferred : Bool)
deriving DecidableEq

/-- Modelled from the spec: the domain a declaration belongs to, following
the resolver's five rules in priority order (section 4.1): explicit global
attribute, actor membership, global/static mutable storage, inferred global
domain, otherwise unrestricted. -/
def resolveDomain (d : Decl) : Domain :=
  match d.attrGlobal with
  | some t => Domain.GlobalDom t false
  | none =>
    match d.actorMember with
    | some c => Domain.InstanceSelf c
    | none =>
      if d.globalMutableStorage then Domain.UnsafeDom
      else
        match d.inferredGlobalAttr with
        | some t => Domain.GlobalDom t true
        | none => Domain.Unrestricted

/-- Modelled from the spec: whether a referencing context's domain already is
the global domain identified by `t` (rule 1 of section 4.1 compares them,
ignoring the inferred flag). -/
def Domain.isGlobal (dom : Domain) (t : Nat) : Bool :=
  match dom with
  | Domain.GlobalDom u _ => decide (u = t)
  | _ => false

/-- Modelled from the spec: equality of domains as the Boundary Checker uses
it (section 4.3): same actor instance (same actor class, reference via that
instance's own domain), same global domain (the inferred flag does not
distinguish domains), or both unrestricted. -/
def Domain.sameAs (a b : Domain) (viaOwnInstance : Bool) : Bool :=
  match a, b with
  | Domain.Unrestricted, Domain.Unrestricted => true
  | Domain.InstanceSelf c, Domain.InstanceSelf c2 =>
      decide (c = c2) && viaOwnInstance
  | Domain.GlobalDom t _, Domain.GlobalDom t2 _ => decide (t = t2)
  | _, _ => false

namespace ActorIsolationRestriction

/-- Modelled from the spec: `ActorIsolationRestriction::forDeclaration`, which
the header only declares (TypeCheckConcurrency.h:168-169); its implementation
is not under src/.  Follows the resolver rules of section 4.1 in priority
order.  Rule 1 yields a global restriction whose cross flag says whether the
referencing context's domain differs from the attribute's domain; rule 2
yields instance isolation, cross-actor when the reference is not via the
instance's own domain, and always cross-actor-reachable for an
isolation-exempt (structurally immutable) member; rule 3 yields the
no-guarantee restriction; rule 4 yields the inferred global restriction;
rule 5 yields no restriction. -/
def forDeclaration (d : Decl) (ctx : RefContext) : ActorIsolationRestriction :=
  let ctxDom := resolveDomain ctx.decl
  match d.attrGlobal with
  | some t => forGlobalActor t (!(ctxDom.isGlobal t)) false
  | none =>
    match d.actorMember with
    | some c =>
        if d.isolationExempt then forActorSelf c true
        else forActorSelf c (!ctx.viaOwnInstance)
    | none =>
      if d.globalMutableStorage then forUnsafeAccess
      else
        match d.inferredGlobalAttr with
        | some t => forGlobalActor t (!(ctxDom.isGlobal t)) true
        | none => forUnrestricted

end ActorIsolationRestriction

/-- Modelled from the spec: the cause a boundary diagnostic is raised for a
crossing — a domain with no isolation guarantee on one of the two sides, or a
non-shareable type moved across the boundary (section 4.3). -/
inductive DiagCause
  | UnsafeDomain
  | NonShareable
deriving DecidableEq

/-- Modelled from the spec: a diagnostic handed to the external diagnostic
sink by the Boundary Checker; the reference kind tailors the wording
(sections 4.3 and 6). -/
structure Diag where
  cause : DiagCause
  refKind : ConcurrentReferenceKind
deriving DecidableEq

/-- Modelled from the spec: whether a domain is a global domain whose
attribute was inferred rather than written (the relaxed global-domain variant
of section 3). -/
def Domain.isInferredGlobal (dom : Domain) : Bool :=
  match dom with
  | Domain.GlobalDom _ inferred => inferred
  | _ => false

/-- Modelled from the spec: the Boundary Checker
`checkReference(declRef, fromContext, kind)` (section 4.3), realizing the
header's `diagnoseNonConcurrentTypesInReference`
(TypeCheckConcurrency.h:200-202), whose implementation is not under src/.
Resolve both domains; equal domains mean no crossing.  On a crossing, a
no-guarantee domain on either side is always reported regardless of type
shareability; an inferred global domain on the declaration suppresses the
diagnostic when the calling context's own isolation is unspecified; otherwise
every non-shareable type in the reference's signature yields one diagnostic.
Returns the source's boolean (`true` = problem detected and reported)
together with the diagnostics sent to the sink. -/
def checkReference (d : Decl) (ctx : RefContext) (k : ConcurrentReferenceKind) :
    Bool × List Diag :=
  let declDom := resolveDomain d
  let ctxDom := resolveDomain ctx.decl
  if Domain.sameAs declDom ctxDom ctx.viaOwnInstance then (false, [])
  else if declDom = Domain.UnsafeDom ∨ ctxDom = Domain.UnsafeDom then
    (true, [⟨DiagCause.UnsafeDomain, k⟩])
  else if Domain.isInferredGlobal declDom ∧ ctxDom = Domain.Unrestricted then
    (false, [])
  else
    let diags := (d.signatureTypes.filter (fun t => !isShareable t)).map
      (fun _ => (⟨DiagCause.NonShareable, k⟩ : Diag))
    (!diags.isEmpty, diags)

/-- From the source (`ConcurrentValueCheck`, TypeCheckConcurrency.h:205-216):
how the concurrent value check should be performed. -/
inductive ConcurrentValueCheck
  | Explicit
  | ImpliedByStandardProtocol
  | Implicit
deriving DecidableEq

/-- Modelled from the spec: a conformance record for the Conformance Checker
(section 4.4) — the conforming nominal type's stored instance members, each a
name with its type (an enum case's associated values are treated as that
case's stored members). -/
structure Conformance where
  storedMembers : List (Nat × Ty)

/-- Modelled from the spec: the stored members of the conforming type whose
types fail the shareability check (section 4.4). -/
def offendingMembers (conf : Conformance) : List (Nat × Ty) :=
  conf.storedMembers.filter (fun m => !isShareable m.2)

/-- Modelled from the spec: a diagnostic of the Conformance Checker — one
error at the conformance site, or one note naming an offending stored member
(section 4.4). -/
inductive CVDiag
  | errNonConcurrentType
  | noteOffendingMember (member : Nat)
deriving DecidableEq

/-- Modelled from the spec: `checkConcurrentValueConformance`, which the
header only declares (TypeCheckConcurrency.h:221-222); its implementation is
not under src/.  Any non-shareable stored member is a failure (`true`).
Under `Explicit` and `ImpliedByStandardProtocol` a failure emits one error at
the conformance site plus one note per offending member; under `Implicit` the
same structural verdict is reached but every diagnostic is suppressed.
Success emits nothing. -/
def checkConcurrentValueConformance (conf : Conformance)
    (check : ConcurrentValueCheck) : Bool × List CVDiag :=
  let off := offendingMembers conf
  if off.isEmpty then (false, [])
  else
    match check with
    | ConcurrentValueCheck.Implicit => (true, [])
    | _ =>
        (true, CVDiag.errNonConcurrentType ::
          off.map (fun m => CVDiag.noteOffendingMember m.1))

/-- Modelled from the spec: the compatible pairs of the Override Checker
(section 4.5) on resolved restrictions: identical variant with identical
identifying payload; instance isolation over the same actor class is
compatible in either direction regardless of which side is the cross-domain
variant; global-domain restrictions are compatible iff the identifying type
matches, regardless of the inferred flag. -/
def overrideIsolationCompatible (a b : ActorIsolationRestriction) : Bool :=
  match a.kind, b.kind with
  | Kind.Unrestricted, Kind.Unrestricted => true
  | Kind.UnsafeAccess, Kind.UnsafeAccess => true
  | Kind.ActorSelf, Kind.ActorSelf => decide (a.data = b.data)
  | Kind.ActorSelf, Kind.CrossActorSelf => decide (a.data = b.data)
  | Kind.CrossActorSelf, Kind.ActorSelf => decide (a.data = b.data)
  | Kind.CrossActorSelf, Kind.CrossActorSelf => decide (a.data = b.data)
  | Kind.GlobalActor, Kind.GlobalActor => decide (a.data = b.data)
  | Kind.GlobalActor, Kind.GlobalActorUnsafeAcc => decide (a.data = b.data)
  | Kind.GlobalActorUnsafeAcc, Kind.GlobalActor => decide (a.data = b.data)
  | Kind.GlobalActorUnsafeAcc, Kind.GlobalActorUnsafeAcc =>
      decide (a.data = b.data)
  | _, _ => false

/-- Modelled from the spec: `checkOverrideActorIsolation`, which the header
only declares (TypeCheckConcurrency.h:176); its implementation is not under
src/.  Resolves the overriding and the overridden declaration and reports an
error (`true`) when their restrictions are not compatible (section 4.5). -/
def checkOverrideActorIsolation (overriding overridden : Decl)
    (site : RefContext) : Bool :=
  !(overrideIsolationCompatible
      (ActorIsolationRestriction.forDeclaration overriding site)
      (ActorIsolationRestriction.forDeclaration overridden site))

/-- A declaration with no isolation attribute, not an actor member, not
global mutable storage: it resolves to `Unrestricted`. -/
def plainDecl : Decl := ⟨none, none, false, false, none, []⟩

/-- A global/static mutable-storage declaration with no isolation attribute:
it resolves to the no-guarantee domain. -/
def storageDecl : Decl := ⟨none, none, false, true, none, []⟩

/-- A declaration carrying an explicit global-domain attribute `t`. -/
def explicitGlobalDecl (t : Nat) (sig : List Ty) : Decl :=
  ⟨some t, none, false, false, none, sig⟩

/-- A declaration whose enclosing type infers global domain `t` for it. -/
def inferredGlobalDecl (t : Nat) (sig : List Ty) : Decl :=
  ⟨none, none, false, false, some t, sig⟩

open ActorIsolationRestriction

/-- C9: for every actor class `C` and boolean `b`, `forActorSelf(C, b)` has
`isCrossActor = b` and `getActorClass() = C`; for every global-actor type `T`
and booleans `b`, `u`, `forGlobalActor(T, b, u)` has `isCrossActor = b` and
`getGlobalActor() = T` — instance and global restrictions always carry the
identifying type they were constructed with. -/
theorem constructionPayloadRoundTrip :
    ∀ (c t : Nat) (b u : Bool),
      (forActorSelf c b).isCrossActor = b ∧
      (forActorSelf c b).getActorClass = some c ∧
      (forGlobalActor t b u).isCrossActor = b ∧
      (forGlobalActor t b u).getGlobalActor = some t := by
  intro c t b u
  cases b <;> cases u <;>
    simp [forActorSelf, forGlobalActor, getActorClass, getGlobalActor]

/-- C10: `forUnrestricted()` and `forUnsafe()` always have
`isCrossActor = false`, and a restriction built by `forActorSelf` has kind
`CrossActorSelf` exactly when `isCrossActor` is true: the cross-domain flag
for instance isolation is redundantly encoded in the kind tag. -/
theorem constructorKindFlagCoherence :
    forUnrestricted.isCrossActor = false ∧
    forUnsafeAccess.isCrossActor = false ∧
    ∀ (c : Nat) (b : Bool),
      (forActorSelf c b).kind
        = (if b then Kind.CrossActorSelf else Kind.ActorSelf) ∧
      (forActorSelf c b).isCrossActor = b := by
  refine ⟨rfl, rfl, ?_⟩
  intro c b
  cases b <;> simp [forActorSelf]

/-- C7: `getActorClass()` returns the stored payload exactly when the kind is
`ActorSelf` or `CrossActorSelf` and `getGlobalActor()` exactly when the kind
is `GlobalActor` or `GlobalActorUnsafe`; outside those preconditions the
assertion branch fires (modelled as `none`). -/
theorem payloadAccessorPreconditions :
    ∀ r : ActorIsolationRestriction,
      ((r.kind = Kind.ActorSelf ∨ r.kind = Kind.CrossActorSelf) →
        r.getActorClass = some r.data) ∧
      (¬(r.kind = Kind.ActorSelf ∨ r.kind = Kind.CrossActorSelf) →
        r.getActorClass = none) ∧
      ((r.kind = Kind.GlobalActor ∨ r.kind = Kind.GlobalActorUnsafeAcc) →
        r.getGlobalActor = some r.data) ∧
      (¬(r.kind = Kind.GlobalActor ∨ r.kind = Kind.GlobalActorUnsafeAcc) →
        r.getGlobalActor = none) := by
  intro r
  refine ⟨?_, ?_, ?_, ?_⟩ <;> intro h <;>
    simp [getActorClass, getGlobalActor, h]

/-- Witness for C7 at concrete restrictions: an instance restriction yields
its actor class and refuses the global-actor query. -/
theorem payloadAccessorPreconditionsWitness :
    (forActorSelf 7 false).getActorClass = some 7 ∧
    (forActorSelf 7 false).getGlobalActor = none :=
  ⟨(payloadAccessorPreconditions (forActorSelf 7 false)).1 (Or.inl rfl),
   (payloadAccessorPreconditions (forActorSelf 7 false)).2.2.2 (by decide)⟩

/-- C2: resolution is a total function of the declaration reference — for
every declaration and referencing context, `forDeclaration` yields a
restriction whose kind is exactly one of the six declared kinds. -/
theorem forDeclarationTotalKinds :
    ∀ (d : Decl) (ctx : RefContext),
      (forDeclaration d ctx).kind = Kind.Unrestricted ∨
      (forDeclaration d ctx).kind = Kind.UnsafeAccess ∨
      (forDeclaration d ctx).kind = Kind.CrossActorSelf ∨
      (forDeclaration d ctx).kind = Kind.ActorSelf ∨
      (forDeclaration d ctx).kind = Kind.GlobalActor ∨
      (forDeclaration d ctx).kind = Kind.GlobalActorUnsafeAcc := by
  intro d ctx
  cases h : (forDeclaration d ctx).kind <;> simp

/-- The no-guarantee domain is never equal to any domain under the Boundary
Checker's domain equality, not even to itself. -/
theorem sameAsNoGuaranteeLeft :
    ∀ (b : Domain) (v : Bool), Domain.sameAs Domain.UnsafeDom b v = false := by
  intro b v
  cases b <;> rfl

/-- The kind of a resolved restriction reflects the declaration's own domain:
it is `UnsafeAccess` exactly when the declaration lives in the no-guarantee
domain, and `Unrestricted` exactly when the declaration's domain is
unrestricted. -/
theorem kindReflectsDomain (d : Decl) (ctx : RefContext) :
    ((forDeclaration d ctx).kind = Kind.UnsafeAccess ↔
      resolveDomain d = Domain.UnsafeDom) ∧
    ((forDeclaration d ctx).kind = Kind.Unrestricted ↔
      resolveDomain d = Domain.Unrestricted) := by
  rcases d with ⟨ag, am, ex, st, inf, sig⟩
  rcases ctx with ⟨cd, via⟩
  cases ag <;> cases am <;> cases st <;> cases inf <;> cases ex <;>
    cases via <;>
    simp [forDeclaration, resolveDomain, forGlobalActor, forActorSelf,
      forUnsafeAccess, forUnrestricted]

/-- C1: whenever a declaration's resolved restriction has the kind the source
calls `Unsafe`, the boundary check reports a violation for every referencing
context and every reference kind — it returns `true` and emits exactly one
diagnostic for the no-guarantee domain, regardless of the shareability of the
referenced types. -/
theorem alwaysReportedForUnsafeKind :
    ∀ (d : Decl) (ctx : RefContext) (k : ConcurrentReferenceKind),
      (forDeclaration d ctx).kind = Kind.UnsafeAccess →
      checkReference d ctx k = (true, [⟨DiagCause.UnsafeDomain, k⟩]) := by
  intro d ctx k h
  have hd : resolveDomain d = Domain.UnsafeDom :=
    (kindReflectsDomain d ctx).1.mp h
  simp [checkReference, hd, sameAsNoGuaranteeLeft]

/-- Witness for C1: a global mutable-storage declaration referenced from an
unrestricted context is reported. -/
theorem alwaysReportedForUnsafeKindWitness :
    checkReference storageDecl ⟨plainDecl, false⟩
        ConcurrentReferenceKind.CrossActor
      = (true, [⟨DiagCause.UnsafeDomain, ConcurrentReferenceKind.CrossActor⟩]) :=
  alwaysReportedForUnsafeKind storageDecl ⟨plainDecl, false⟩
    ConcurrentReferenceKind.CrossActor (by decide)

/-- Counterexample to C6 as stated: a declaration resolving to `Unrestricted`
that is referenced from the initializer of global mutable storage (a context
in the no-guarantee domain) is reported — the boundary check returns `true`
with a domain diagnostic, so `Unrestricted` resolution of the declaration does
not keep every context free of isolation reports. -/
theorem unrestrictedReportedFromStorageContext :
    (forDeclaration plainDecl ⟨storageDecl, false⟩).kind = Kind.Unrestricted ∧
    checkReference plainDecl ⟨storageDecl, false⟩
        ConcurrentReferenceKind.CrossActor
      = (true, [⟨DiagCause.UnsafeDomain, ConcurrentReferenceKind.CrossActor⟩]) := by
  decide

/-- C6 as amended: for a declaration resolving to `Unrestricted`, every
referencing context that does not itself resolve to the no-guarantee domain
receives no diagnostic attributable to isolation (any diagnostic is a
shareability one), and when the context also resolves to `Unrestricted` no
crossing occurs and the check returns `false` with no diagnostics. -/
theorem noIsolationViolationForUnrestricted :
    ∀ (d : Decl) (ctx : RefContext) (k : ConcurrentReferenceKind),
      (forDeclaration d ctx).kind = Kind.Unrestricted →
      (resolveDomain ctx.decl ≠ Domain.UnsafeDom →
        ∀ diag ∈ (checkReference d ctx k).2,
          diag.cause = DiagCause.NonShareable) ∧
      (resolveDomain ctx.decl = Domain.Unrestricted →
        checkReference d ctx k = (false, [])) := by
  intro d ctx k h
  have hd : resolveDomain d = Domain.Unrestricted :=
    (kindReflectsDomain d ctx).2.mp h
  constructor
  · intro hctx diag hmem
    rcases hc : resolveDomain ctx.decl with _ | _ | c | ⟨t, i⟩
    · simp [checkReference, hd, hc, Domain.sameAs] at hmem
    · exact absurd hc hctx
    · simp [checkReference, hd, hc, Domain.sameAs, Domain.isInferredGlobal,
        List.mem_map] at hmem
      obtain ⟨ha, rfl⟩ := hmem
      rfl
    · simp [checkReference, hd, hc, Domain.sameAs, Domain.isInferredGlobal,
        List.mem_map] at hmem
      obtain ⟨ha, rfl⟩ := hmem
      rfl
  · intro hctx
    simp [checkReference, hd, hctx, Domain.sameAs]

/-- Witness for C6 as amended: with `Unrestricted` on both sides the check
returns `false` with no diagnostics. -/
theorem noIsolationViolationForUnrestrictedWitness :
    checkReference plainDecl ⟨plainDecl, false⟩
        ConcurrentReferenceKind.CrossActor = (false, []) :=
  (noIsolationViolationForUnrestricted plainDecl ⟨plainDecl, false⟩
      ConcurrentReferenceKind.CrossActor (by decide)).2 (by decide)

/-- If every stored member of an aggregate passes the shareability check, so
does each individual member. -/
theorem allMembersShareableMem :
    ∀ (l : List Ty) (m : Ty), m ∈ l → allMembersShareable l = true →
      isShareable m = true := by
  intro l
  induction l with
  | nil =>
    intro m hm
    cases hm
  | cons a ts ih =>
    intro m hm hall
    rw [allMembersShareable, Bool.and_eq_true] at hall
    rcases List.mem_cons.mp hm with rfl | hmem
    · exact hall.1
    · exact ih m hmem hall.2

/-- C4: the shareability check is monotonic over structural containment — a
nominal type with a stored member of non-shareable type is itself never
shareable. -/
theorem isShareableMonotonicOverMembers :
    ∀ (members : List Ty) (m : Ty), m ∈ members → isShareable m = false →
      isShareable (Ty.strukt members) = false := by
  intro members m hm hns
  cases hres : isShareable (Ty.strukt members) with
  | false => rfl
  | true =>
    exfalso
    have hmem : isShareable m = true :=
      allMembersShareableMem members m hm (by simpa [isShareable] using hres)
    rw [hns] at hmem
    cases hmem

/-- Witness for C4: a struct with a plain mutable-reference stored member is
not shareable. -/
theorem isShareableMonotonicOverMembersWitness :
    isShareable (Ty.strukt [Ty.prim 0, Ty.mutRef 1]) = false :=
  isShareableMonotonicOverMembers [Ty.prim 0, Ty.mutRef 1] (Ty.mutRef 1)
    (by simp) rfl

/-- A conformance on a struct with one shareable stored member and one
stored member of a plain mutable-reference type. -/
def mixedConf : Conformance := ⟨[(0, Ty.prim 0), (1, Ty.mutRef 2)]⟩

/-- C3: under `Implicit` provenance the conformance check emits no diagnostic
whatever the verdict, while the verdict itself (`true` on failure) is the same
for every provenance; under `Explicit` or `ImpliedByStandardProtocol`
provenance a failure emits exactly one error plus one note per offending
stored member, and success emits nothing. -/
theorem concurrentValueConformanceDiagnostics :
    ∀ conf : Conformance,
      (checkConcurrentValueConformance conf ConcurrentValueCheck.Implicit).2
        = [] ∧
      (∀ check : ConcurrentValueCheck,
        (checkConcurrentValueConformance conf check).1
          = !(offendingMembers conf).isEmpty) ∧
      (∀ check : ConcurrentValueCheck,
        check ≠ ConcurrentValueCheck.Implicit →
        (checkConcurrentValueConformance conf check).2
          = (if (offendingMembers conf).isEmpty then []
             else CVDiag.errNonConcurrentType ::
               (offendingMembers conf).map
                 (fun m => CVDiag.noteOffendingMember m.1))) := by
  intro conf
  refine ⟨?_, ?_, ?_⟩
  · cases hoff : (offendingMembers conf).isEmpty <;>
      simp [checkConcurrentValueConformance, hoff]
  · intro check
    cases hoff : (offendingMembers conf).isEmpty <;> cases check <;>
      simp [checkConcurrentValueConformance, hoff]
  · intro check hck
    cases hoff : (offendingMembers conf).isEmpty <;> cases check <;>
      first
        | exact absurd rfl hck
        | simp [checkConcurrentValueConformance, hoff]

/-- Witness for C3 at a concrete conformance: `Implicit` is silent yet fails,
and `Explicit` emits the error and the single note for the offending member. -/
theorem concurrentValueConformanceDiagnosticsWitness :
    (checkConcurrentValueConformance mixedConf
        ConcurrentValueCheck.Implicit).2 = [] ∧
    (checkConcurrentValueConformance mixedConf
        ConcurrentValueCheck.Implicit).1 = true ∧
    (checkConcurrentValueConformance mixedConf
        ConcurrentValueCheck.Explicit).2
      = [CVDiag.errNonConcurrentType, CVDiag.noteOffendingMember 1] := by
  refine ⟨(concurrentValueConformanceDiagnostics mixedConf).1, ?_, ?_⟩
  · rw [(concurrentValueConformanceDiagnostics mixedConf).2.1
      ConcurrentValueCheck.Implicit]
    decide
  · rw [(concurrentValueConformanceDiagnostics mixedConf).2.2
      ConcurrentValueCheck.Explicit (by decide)]
    decide

/-- A stored member of actor class 3, not isolation-exempt. -/
def actorMemberDecl : Decl := ⟨none, some 3, false, false, none, []⟩

/-- An isolation-exempt (structurally immutable) stored member of actor
class 3, reachable cross-actor. -/
def actorMemberExemptDecl : Decl := ⟨none, some 3, true, false, none, []⟩

/-- C5: the override check is symmetric in the instance-isolation
cross-domain-safe case — for two declarations whose resolved restrictions are
`ActorSelf`/`CrossActorSelf` over the same identifying actor class, it finds
the first compatible with the second exactly when it finds the second
compatible with the first (and indeed finds them compatible), irrespective of
which side carries the cross-domain flag. -/
theorem overrideInstanceSelfSymmetric :
    ∀ (a b : Decl) (site : RefContext) (c : Nat),
      ((forDeclaration a site).kind = Kind.ActorSelf ∨
        (forDeclaration a site).kind = Kind.CrossActorSelf) →
      ((forDeclaration b site).kind = Kind.ActorSelf ∨
        (forDeclaration b site).kind = Kind.CrossActorSelf) →
      (forDeclaration a site).getActorClass = some c →
      (forDeclaration b site).getActorClass = some c →
      checkOverrideActorIsolation a b site
        = checkOverrideActorIsolation b a site ∧
      checkOverrideActorIsolation a b site = false := by
  intro a b site c ha hb hca hcb
  have hda : (forDeclaration a site).data = c := by
    rcases ha with h | h <;> simp [getActorClass, h] at hca <;> exact hca
  have hdb : (forDeclaration b site).data = c := by
    rcases hb with h | h <;> simp [getActorClass, h] at hcb <;> exact hcb
  rcases ha with h1 | h1 <;> rcases hb with h2 | h2 <;>
    simp [checkOverrideActorIsolation, overrideIsolationCompatible,
      h1, h2, hda, hdb]

/-- Witness for C5: a non-exempt and an exempt member of the same actor class
(an `ActorSelf` / `CrossActorSelf` pair) are override-compatible in both
directions. -/
theorem overrideInstanceSelfSymmetricWitness :
    checkOverrideActorIsolation actorMemberDecl actorMemberExemptDecl
        ⟨plainDecl, true⟩
      = checkOverrideActorIsolation actorMemberExemptDecl actorMemberDecl
        ⟨plainDecl, true⟩ :=
  (overrideInstanceSelfSymmetric actorMemberDecl actorMemberExemptDecl
    ⟨plainDecl, true⟩ 3 (by decide) (by decide) (by decide) (by decide)).1

/-- C8: `forGlobalActor(T, isCrossActor, isUnsafe)` yields the kind the source
calls `GlobalActorUnsafe` exactly when the third flag is set and `GlobalActor`
otherwise.  A declaration resolving to that inferred-global kind relaxes the
boundary diagnostics only for calling contexts whose own isolation is
unspecified: such a context receives no report at all, while for any context
with specified isolation the check behaves exactly as it does for the
explicitly attributed declaration in the same global domain. -/
theorem forGlobalActorKindAndRelaxation :
    (∀ (t : Nat) (b u : Bool),
      (forGlobalActor t b u).kind
        = (if u then Kind.GlobalActorUnsafeAcc else Kind.GlobalActor)) ∧
    (∀ (t : Nat) (sig : List Ty) (ctx : RefContext)
        (k : ConcurrentReferenceKind),
      (forDeclaration (inferredGlobalDecl t sig) ctx).kind
        = Kind.GlobalActorUnsafeAcc ∧
      (resolveDomain ctx.decl = Domain.Unrestricted →
        checkReference (inferredGlobalDecl t sig) ctx k = (false, [])) ∧
      (resolveDomain ctx.decl ≠ Domain.Unrestricted →
        checkReference (inferredGlobalDecl t sig) ctx k
          = checkReference (explicitGlobalDecl t sig) ctx k)) := by
  constructor
  · intro t b u
    cases u <;> rfl
  · intro t sig ctx k
    have hDecl : resolveDomain (inferredGlobalDecl t sig)
        = Domain.GlobalDom t true := rfl
    have hExp : resolveDomain (explicitGlobalDecl t sig)
        = Domain.GlobalDom t false := rfl
    have hsig1 : (inferredGlobalDecl t sig).signatureTypes = sig := rfl
    have hsig2 : (explicitGlobalDecl t sig).signatureTypes = sig := rfl
    refine ⟨rfl, ?_, ?_⟩
    · intro hctx
      simp [checkReference, hDecl, hctx, Domain.sameAs,
        Domain.isInferredGlobal]
    · intro hctx
      rcases hc : resolveDomain ctx.decl with _ | _ | c | ⟨u, i⟩
      · exact absurd hc hctx
      · simp [checkReference, hDecl, hExp, hsig1, hsig2, hc,
          Domain.sameAs, Domain.isInferredGlobal]
      · simp [checkReference, hDecl, hExp, hsig1, hsig2, hc,
          Domain.sameAs, Domain.isInferredGlobal]
      · simp [checkReference, hDecl, hExp, hsig1, hsig2, hc,
          Domain.sameAs, Domain.isInferredGlobal]

/-- Witness for C8: the inferred global-domain declaration is unreported from
an unspecified-isolation context, and from a context with specified isolation
it is checked exactly like its explicitly attributed counterpart. -/
theorem forGlobalActorKindAndRelaxationWitness :
    checkReference (inferredGlobalDecl 1 [Ty.mutRef 0]) ⟨plainDecl, false⟩
        ConcurrentReferenceKind.CrossActor = (false, []) ∧
    checkReference (inferredGlobalDecl 1 [Ty.mutRef 0]) ⟨storageDecl, false⟩
        ConcurrentReferenceKind.CrossActor
      = checkReference (explicitGlobalDecl 1 [Ty.mutRef 0])
          ⟨storageDecl, false⟩ ConcurrentReferenceKind.CrossActor :=
  ⟨(forGlobalActorKindAndRelaxation.2 1 [Ty.mutRef 0] ⟨plainDecl, false⟩
      ConcurrentReferenceKind.CrossActor).2.1 (by decide),
   (forGlobalActorKindAndRelaxation.2 1 [Ty.mutRef 0] ⟨storageDecl, false⟩
      ConcurrentReferenceKind.CrossActor).2.2 (by decide)⟩

end Swift
